import Mathlib

set_option autoImplicit false

/-! Shallow embedding of the interoptopus C#/Rust storage bridge
(src/src/lib.rs of elpiel/interoptopus-csharp).

Modelling conventions:
- A Rust string (String / str) is represented by the list of its UTF-8
  bytes (List UInt8); validity of the encoding is tracked by the
  executable predicate validUtf8 where the code checks it.
- A nullable C pointer to a null-terminated string (const c_char, or an
  interoptopus AsciiPointer) is an Option (List UInt8) holding the raw
  buffer bytes; none is the null pointer.  Reading a C string from a
  pointer (CStr::from_ptr, AsciiPointer::as_c_str) takes the bytes up to
  the first 0, modelled by cStrRead.
- Host-side callbacks are pure functions threading an explicit host
  state of type s (a type parameter of each bridge structure); a set
  callback returns the new host state, a get callback reads it.
- A Rust computation that can panic (unwrap, expect, out-of-bounds
  slicing) or return Err is modelled by RustOutcome; the interoptopus
  service wrapper catches panics at the FFI boundary and converts
  outcomes to FFIError codes, modelled by RustOutcome.ffiCode. -/

/-- EnvError from lib.rs: the single domain error variant Other(String). -/
inductive EnvError where
  | Other : String → EnvError
deriving DecidableEq, Repr

/-- FFIError from the ffi_error module of lib.rs: the four host-visible
status codes Ok = 0, Null = 100, Panic = 200, Fail = 300. -/
inductive FFIError where
  | Ok
  | Null
  | Panic
  | Fail
deriving DecidableEq, Repr

/-- Numeric discriminants of FFIError as declared in lib.rs. -/
def FFIError.code : FFIError → Nat
  | .Ok => 0
  | .Null => 100
  | .Panic => 200
  | .Fail => 300

/-- Impl From(EnvError) for FFIError in lib.rs: the argument is ignored
and every domain error is erased to Fail. -/
def FFIError.fromEnvError (_x : EnvError) : FFIError :=
  FFIError.Fail

/-- Default for FFIError in lib.rs: the good case is Ok. -/
def FFIError.default : FFIError := FFIError.Ok

/-- Outcome of a Rust computation observed at the FFI boundary: a normal
return, an Err propagated by the question-mark operator, or a panic
(from unwrap / expect / out-of-bounds indexing) unwinding to the
boundary wrapper. -/
inductive RustOutcome (α : Type) where
  | ok : α → RustOutcome α
  | err : EnvError → RustOutcome α
  | panic : String → RustOutcome α
deriving DecidableEq, Repr

def RustOutcome.isPanic {α : Type} : RustOutcome α → Bool
  | .panic _ => true
  | _ => false

/-- Error code the interoptopus service wrapper reports to the host: the
SUCCESS code for a normal return, the From-converted code for an Err,
and PANIC for a caught unwind. -/
def RustOutcome.ffiCode {α : Type} : RustOutcome α → FFIError
  | .ok _ => FFIError.Ok
  | .err e => FFIError.fromEnvError e
  | .panic _ => FFIError.Panic

def RustOutcome.map {α β : Type} (f : α → β) : RustOutcome α → RustOutcome β
  | .ok a => .ok (f a)
  | .err e => .err e
  | .panic m => .panic m

/-- CString::new from the Rust standard library: fails (NulError) when
the byte string contains an interior null byte, otherwise yields the
same bytes (with an implicit terminator appended).  The unwrap of this
Result at the lib.rs call sites turns the failure into a panic. -/
def CString.new (bytes : List UInt8) : Option (List UInt8) :=
  if (0 : UInt8) ∈ bytes then none else some bytes

/-- CStr::from_ptr semantics: reading a C string from a non-null pointer
takes the buffer bytes up to (excluding) the first null byte. -/
def cStrRead (raw : List UInt8) : List UInt8 :=
  raw.takeWhile (fun b => b != 0)

/-- Continuation byte of a multi-byte UTF-8 sequence: 0x80 to 0xBF. -/
def isUtf8Cont (b : UInt8) : Bool :=
  128 ≤ b && b ≤ 191

/-- Executable UTF-8 validity check, the model of str::from_utf8 /
CStr::to_str succeeding in the Rust standard library (RFC 3629: rejects
overlong encodings, surrogates and code points above U+10FFFF). -/
def validUtf8 : List UInt8 → Bool
  | [] => true
  | b :: rest =>
    if b ≤ 127 then validUtf8 rest
    else if 194 ≤ b && b ≤ 223 then
      match rest with
      | c1 :: rest2 => isUtf8Cont c1 && validUtf8 rest2
      | [] => false
    else if b == 224 then
      match rest with
      | c1 :: c2 :: rest2 => (160 ≤ c1 && c1 ≤ 191) && isUtf8Cont c2 && validUtf8 rest2
      | _ => false
    else if (225 ≤ b && b ≤ 236) || b == 238 || b == 239 then
      match rest with
      | c1 :: c2 :: rest2 => isUtf8Cont c1 && isUtf8Cont c2 && validUtf8 rest2
      | _ => false
    else if b == 237 then
      match rest with
      | c1 :: c2 :: rest2 => (128 ≤ c1 && c1 ≤ 159) && isUtf8Cont c2 && validUtf8 rest2
      | _ => false
    else if b == 240 then
      match rest with
      | c1 :: c2 :: c3 :: rest2 =>
        (144 ≤ c1 && c1 ≤ 191) && isUtf8Cont c2 && isUtf8Cont c3 && validUtf8 rest2
      | _ => false
    else if 241 ≤ b && b ≤ 243 then
      match rest with
      | c1 :: c2 :: c3 :: rest2 =>
        isUtf8Cont c1 && isUtf8Cont c2 && isUtf8Cont c3 && validUtf8 rest2
      | _ => false
    else if b == 244 then
      match rest with
      | c1 :: c2 :: c3 :: rest2 =>
        (128 ≤ c1 && c1 ≤ 143) && isUtf8Cont c2 && isUtf8Cont c3 && validUtf8 rest2
      | _ => false
    else false

/-- Storage from lib.rs: the raw bridge, wrapping the two host-supplied
C function pointers GetStorageCallback and SetStorageCallback that
operate on raw null-terminated byte buffers.  The host state s makes the
side effects of the callbacks observable. -/
structure Storage (σ : Type) where
  get_callback : σ → List UInt8 → Option (List UInt8)
  set_callback : σ → List UInt8 → Option (List UInt8) → σ

/-- StorageAscii from lib.rs: the bounded bridge, wrapping the two
callback objects GetStorageCallbackAscii and SetStorageCallbackAscii
operating on nullable AsciiPointer values. -/
structure StorageAscii (σ : Type) where
  get_callback : σ → Option (List UInt8) → Option (List UInt8)
  set_callback : σ → Option (List UInt8) → Option (List UInt8) → σ

/-- Storage::storage_set (lib.rs lines 234-245): encodes key (and value,
if present) with CString::new(..).unwrap() - panicking on an interior
null byte - and invokes the set callback; an absent value is passed as
the null pointer (std::ptr::null()). -/
def Storage.storage_set {σ : Type} (s : Storage σ) (host : σ)
    (key : List UInt8) (value : Option (List UInt8)) : RustOutcome σ :=
  match CString.new key with
  | none => .panic "nul byte found in provided data"
  | some keyC =>
    match value with
    | some v =>
      match CString.new v with
      | none => .panic "nul byte found in provided data"
      | some vC => .ok (s.set_callback host keyC (some vC))
    | none => .ok (s.set_callback host keyC none)

/-- Storage::storage_get (lib.rs lines 248-258): encodes key, invokes the
get callback; a null return pointer is None, otherwise the pointed-to C
string is decoded with to_str().unwrap(), panicking on invalid UTF-8. -/
def Storage.storage_get {σ : Type} (s : Storage σ) (host : σ)
    (key : List UInt8) : RustOutcome (Option (List UInt8)) :=
  match CString.new key with
  | none => .panic "nul byte found in provided data"
  | some keyC =>
    match s.get_callback host keyC with
    | none => .ok none
    | some raw =>
      let content := cStrRead raw
      if validUtf8 content then .ok (some content)
      else .panic "invalid utf-8 sequence"

/-- StorageAscii::storage_set (lib.rs lines 181-193): like the raw set,
but the callback receives AsciiPointer arguments; an absent value is
passed as AsciiPointer::default(), whose pointer is null. -/
def StorageAscii.storage_set {σ : Type} (s : StorageAscii σ) (host : σ)
    (key : List UInt8) (value : Option (List UInt8)) : RustOutcome σ :=
  match CString.new key with
  | none => .panic "nul byte found in provided data"
  | some keyC =>
    match value with
    | some v =>
      match CString.new v with
      | none => .panic "nul byte found in provided data"
      | some vC => .ok (s.set_callback host (some keyC) (some vC))
    | none => .ok (s.set_callback host (some keyC) none)

/-- StorageAscii::storage_get (lib.rs lines 195-208): encodes key,
invokes the get callback; a null AsciiPointer is None (as_c_str returns
None), otherwise the C string is decoded and an invalid UTF-8 sequence
is mapped to Err(EnvError::Other(..)) and transposed out. -/
def StorageAscii.storage_get {σ : Type} (s : StorageAscii σ) (host : σ)
    (key : List UInt8) : RustOutcome (Option (List UInt8)) :=
  match CString.new key with
  | none => .panic "nul byte found in provided data"
  | some keyC =>
    match s.get_callback host (some keyC) with
    | none => .ok none
    | some raw =>
      let content := cStrRead raw
      if validUtf8 content then .ok (some content)
      else .err (EnvError.Other "invalid utf-8 sequence")

/-- UTF-8 bytes of the serde_json rendering of Value::Null, the string
null substituted by ffi_get when the callback yields no value. -/
def jsonNullText : List UInt8 := [110, 117, 108, 108]

/-- StorageAscii::ffi_get (lib.rs lines 160-177): decodes the key
(expect panics on invalid UTF-8), performs storage_get (Err propagates
via the question mark), renders an absent value as the JSON text null,
and copies the result including its null terminator into the
caller-supplied buffer.  The buffer is modelled as a list whose length
is the FFISliceMut capacity; the Rust slicing result[..n] panics when n
exceeds the capacity (no capacity check exists in the code).  On success
the returned pair is the new buffer contents and the value written to
result_written (byte count including the terminator). -/
def StorageAscii.ffi_get {σ : Type} (s : StorageAscii σ) (host : σ)
    (key : List UInt8) (result : List UInt8) : RustOutcome (List UInt8 × Nat) :=
  if validUtf8 key then
    match s.storage_get host key with
    | .panic m => .panic m
    | .err e => .err e
    | .ok value =>
      let json := value.getD jsonNullText
      match CString.new json with
      | none => .panic "nul byte found in provided data"
      | some jsonC =>
        let withNul := jsonC ++ [0]
        if withNul.length ≤ result.length then
          .ok (withNul ++ result.drop withNul.length, withNul.length)
        else
          .panic "range end index out of range for slice"
  else .panic "Valid UTF-8"

/-- DebugLogCallback from lib.rs: a host callback taking an AsciiPointer
message; modelled as a host-state transformer. -/
def DebugLogCallback (σ : Type) : Type :=
  σ → Option (List UInt8) → σ

/-- StorageI from lib.rs: the closed sum of the two bridge kinds held by
CoreService. -/
inductive StorageI (σ : Type) where
  | Bare : Storage σ → StorageI σ
  | Ascii : StorageAscii σ → StorageI σ

/-- CoreService from lib.rs: the opaque service handle owning zero or
one storage bridge. -/
structure CoreService (σ : Type) where
  storage : Option (StorageI σ)

/-- UTF-8 bytes of the literal passed to the debug callback by
initialize_native_with_debug_call and
initialize_with_storage_without_set_get:
debug callback has been triggered. -/
def debugMsgTriggered : List UInt8 :=
  [100, 101, 98, 117, 103, 32, 99, 97, 108, 108, 98, 97, 99, 107, 32,
   104, 97, 115, 32, 98, 101, 101, 110, 32, 116, 114, 105, 103, 103,
   101, 114, 101, 100]

/-- UTF-8 bytes of the literal passed to the debug callback by
initialize_with_storage_ascii_without_set_get: Before RUNTIME.read(). -/
def debugMsgBeforeRuntime : List UInt8 :=
  [66, 101, 102, 111, 114, 101, 32, 82, 85, 78, 84, 73, 77, 69, 46,
   114, 101, 97, 100, 40, 41]

/-- UTF-8 bytes of the probe key literal key used by the eager set/get
probe constructors. -/
def probeKey : List UInt8 := [107, 101, 121]

/-- UTF-8 bytes of the probe value literal value used by the eager set
probe constructors. -/
def probeValue : List UInt8 := [118, 97, 108, 117, 101]

/-- CoreService::initialize_native_with_debug_call (lib.rs lines 40-48):
builds the diagnostic CString (mapping a NulError to
EnvError::Other, propagated by the question mark), calls the debug
callback once, and returns a service holding no bridge. -/
def CoreService.initialize_native_with_debug_call {σ : Type}
    (debug_callback : DebugLogCallback σ) (host : σ) :
    RustOutcome (CoreService σ × σ) :=
  match CString.new debugMsgTriggered with
  | none => .err (EnvError.Other "doesn't work")
  | some m => .ok (⟨none⟩, debug_callback host (some m))

/-- CoreService::initialize_with_storage_with_set (lib.rs lines 51-57):
performs one eager storage_set("key", Some("value")) probe against the
supplied raw bridge, then retains that bridge. -/
def CoreService.initialize_with_storage_with_set {σ : Type}
    (storage : Storage σ) (host : σ) : RustOutcome (CoreService σ × σ) :=
  match storage.storage_set host probeKey (some probeValue) with
  | .ok host2 => .ok (⟨some (StorageI.Bare storage)⟩, host2)
  | .err e => .err e
  | .panic m => .panic m

/-- CoreService::initialize_with_storage_with_get (lib.rs lines 60-66):
performs one eager storage_get("key") probe against the supplied raw
bridge and discards the resulting Option, then retains that bridge.  A
panic inside the probe (raw storage_get unwraps the UTF-8 decode)
propagates. -/
def CoreService.initialize_with_storage_with_get {σ : Type}
    (storage : Storage σ) (host : σ) : RustOutcome (CoreService σ × σ) :=
  match storage.storage_get host probeKey with
  | .panic m => .panic m
  | .err _ => .ok (⟨some (StorageI.Bare storage)⟩, host)
  | .ok _ => .ok (⟨some (StorageI.Bare storage)⟩, host)

/-- CoreService::initialize_with_storage_without_set_get (lib.rs lines
69-82): calls the debug callback once with the diagnostic literal, then
retains the supplied raw bridge without exercising it. -/
def CoreService.initialize_with_storage_without_set_get {σ : Type}
    (storage : Storage σ) (debug_callback : DebugLogCallback σ) (host : σ) :
    RustOutcome (CoreService σ × σ) :=
  match CString.new debugMsgTriggered with
  | none => .err (EnvError.Other "doesn't work")
  | some m => .ok (⟨some (StorageI.Bare storage)⟩, debug_callback host (some m))

/-- CoreService::initialize_with_storage_ascii_with_set (lib.rs lines
85-91): one eager storage_set("key", Some("value")) probe against the
supplied bounded bridge, then retains it. -/
def CoreService.initialize_with_storage_ascii_with_set {σ : Type}
    (storage : StorageAscii σ) (host : σ) : RustOutcome (CoreService σ × σ) :=
  match storage.storage_set host probeKey (some probeValue) with
  | .ok host2 => .ok (⟨some (StorageI.Ascii storage)⟩, host2)
  | .err e => .err e
  | .panic m => .panic m

/-- CoreService::initialize_with_storage_ascii_with_get (lib.rs lines
94-100): one eager storage_get("key") probe against the supplied
bounded bridge; the Result is bound to an unused binding, so even an
Err outcome of the probe is discarded, and the bridge is retained. -/
def CoreService.initialize_with_storage_ascii_with_get {σ : Type}
    (storage : StorageAscii σ) (host : σ) : RustOutcome (CoreService σ × σ) :=
  match storage.storage_get host probeKey with
  | .panic m => .panic m
  | .err _ => .ok (⟨some (StorageI.Ascii storage)⟩, host)
  | .ok _ => .ok (⟨some (StorageI.Ascii storage)⟩, host)

/-- CoreService::initialize_with_storage_ascii_without_set_get (lib.rs
lines 103-116): calls the debug callback once with the Before
RUNTIME.read() literal, then retains the supplied bounded bridge. -/
def CoreService.initialize_with_storage_ascii_without_set_get {σ : Type}
    (storage : StorageAscii σ) (debug_callback : DebugLogCallback σ) (host : σ) :
    RustOutcome (CoreService σ × σ) :=
  match CString.new debugMsgBeforeRuntime with
  | none => .err (EnvError.Other "doesn't work")
  | some m => .ok (⟨some (StorageI.Ascii storage)⟩, debug_callback host (some m))

/-- FFIOption from the interoptopus option pattern: a C-representable
optional value returned by api_guard. -/
inductive FFIOption (α : Type) where
  | some : α → FFIOption α
  | none : FFIOption α
deriving DecidableEq, Repr

def FFIOption.is_some {α : Type} : FFIOption α → Bool
  | .some _ => true
  | .none => false

/-- Inventory of registered FFI entry points, as assembled by
my_inventory in lib.rs through the InventoryBuilder. -/
structure Inventory where
  entries : List String
deriving DecidableEq, Repr

/-- Modelled from the spec: APIVersion (from the interoptopus api_guard
pattern, whose source is outside this repository) is an opaque
compatibility token computed deterministically from the full set of
registered entry points. -/
structure APIVersion where
  version : Nat
deriving DecidableEq, Repr

/-- Modelled from the spec: the deterministic token computation over the
registered entry-point inventory (a 64-bit fold over the entry names). -/
def APIVersion.ofInventory (i : Inventory) : APIVersion :=
  ⟨i.entries.foldl
    (fun h s => (h * 1099511628211 + s.length + 1) % 18446744073709551616)
    14695981039346656037⟩

/-- my_inventory from lib.rs lines 302-313: registers the api_guard
function, the two storage service patterns and the core service
pattern. -/
def my_inventory : Inventory :=
  ⟨["api_guard", "Storage", "StorageAscii", "CoreService"]⟩

/-- api_guard from lib.rs lines 315-319: rebuilds the inventory on every
call and returns FFIOption::some of the APIVersion derived from it.
The Unit argument reflects that the Rust function is a nullary function
invoked once per call. -/
def api_guard (_u : Unit) : FFIOption APIVersion :=
  FFIOption.some (APIVersion.ofInventory my_inventory)

/-! Host stubs used to settle the claims: an in-memory association map
(for the round-trip property) and trivial hosts for concrete
evaluations. -/

/-- In-memory key/value map backing the stub host callbacks: an
association list from key bytes to value bytes. -/
def StubMap : Type := List (List UInt8 × List UInt8)

def stubLookup (m : StubMap) (k : List UInt8) : Option (List UInt8) :=
  (m.find? (fun p => p.1 == k)).map (fun p => p.2)

def stubInsert (m : StubMap) (k v : List UInt8) : StubMap :=
  (k, v) :: m

def stubRemove (m : StubMap) (k : List UInt8) : StubMap :=
  m.filter (fun p => !(p.1 == k))

/-- Raw-bridge host stub backed by the in-memory map. -/
def rawStub : Storage StubMap :=
  ⟨fun m k => stubLookup m k,
   fun m k v =>
     match v with
     | some v => stubInsert m k v
     | none => stubRemove m k⟩

/-- Bounded-bridge host stub backed by the in-memory map; a null key
pointer reads as absent and writes nothing. -/
def asciiStub : StorageAscii StubMap :=
  ⟨fun m k =>
     match k with
     | some k => stubLookup m k
     | none => none,
   fun m k v =>
     match k, v with
     | some k, some v => stubInsert m k v
     | some k, none => stubRemove m k
     | none, _ => m⟩

/-- Raw-bridge host whose get callback always returns the null pointer
and whose set callback is a no-op. -/
def nullRawStub : Storage Unit :=
  ⟨fun _ _ => none, fun u _ _ => u⟩

/-- Bounded-bridge host whose get callback always returns the null
AsciiPointer and whose set callback is a no-op. -/
def nullAsciiStub : StorageAscii Unit :=
  ⟨fun _ _ => none, fun u _ _ => u⟩

/-- Raw-bridge host whose get callback returns a buffer holding the
single byte 0xFF, an invalid UTF-8 sequence. -/
def badUtf8RawStub : Storage Unit :=
  ⟨fun _ _ => some [255], fun u _ _ => u⟩

/-- Bounded-bridge host whose get callback returns a buffer holding the
single byte 0xFF, an invalid UTF-8 sequence. -/
def badUtf8AsciiStub : StorageAscii Unit :=
  ⟨fun _ _ => some [255], fun u _ _ => u⟩

/-! Helper lemmas about C-string reading. -/

theorem cStrRead_zero_not_mem (raw : List UInt8) :
    ¬ (0 : UInt8) ∈ cStrRead raw := by
  intro h
  have hp := List.mem_takeWhile_imp h
  simp at hp

theorem cStrRead_eq_self (l : List UInt8) (h : ¬ (0 : UInt8) ∈ l) :
    cStrRead l = l := by
  induction l with
  | nil => rfl
  | cons x xs ih =>
    have hx : x ≠ 0 := by
      intro hx0
      exact h (hx0 ▸ List.mem_cons_self x xs)
    have hxs : ¬ (0 : UInt8) ∈ xs := fun hm => h (List.mem_cons_of_mem x hm)
    simp only [cStrRead] at ih ⊢
    rw [List.takeWhile_cons]
    simp [hx, ih hxs]

theorem CString.new_of_not_mem (l : List UInt8) (h : ¬ (0 : UInt8) ∈ l) :
    CString.new l = some l := by
  simp [CString.new, h]

theorem storage_get_raw_no_err {σ : Type} (s : Storage σ) (host : σ)
    (key : List UInt8) (e : EnvError) :
    s.storage_get host key ≠ RustOutcome.err e := by
  unfold Storage.storage_get
  cases hck : CString.new key with
  | none => simp
  | some keyC =>
    cases hcb : s.get_callback host keyC with
    | none => simp [hcb]
    | some raw =>
      by_cases hvu : validUtf8 (cStrRead raw) = true
      · simp [hcb, hvu]
      · simp [hcb, hvu]

/-- C9: every domain error value, in particular EnvError.Other msg for
any message, converts to exactly FFIError.Fail, and the message is not
preserved: the conversions of any two messages coincide. -/
theorem envError_erased_to_fail :
    (∀ e : EnvError, FFIError.fromEnvError e = FFIError.Fail)
    ∧ ∀ m1 m2 : String,
        FFIError.fromEnvError (EnvError.Other m1)
          = FFIError.fromEnvError (EnvError.Other m2) :=
  ⟨fun _ => rfl, fun _ _ => rfl⟩

/-- C8: api_guard always returns a present (is_some) compatibility
token, every call returns the same result, and the token is the one
computed from the registered entry-point inventory. -/
theorem apiGuard_present_and_idempotent :
    (∀ u : Unit, (api_guard u).is_some = true)
    ∧ (∀ u v : Unit, api_guard u = api_guard v)
    ∧ api_guard () = FFIOption.some (APIVersion.ofInventory my_inventory) :=
  ⟨fun _ => rfl, fun _ _ => rfl, rfl⟩

/-- C7: behaviour of the six CoreService constructor entry points over
the matrix bridge kind (Raw, Bounded) times validation mode: the
eager-set-probe constructors perform exactly one set("key",
Some("value")) callback invocation, the eager-get-probe constructors
perform one get("key") and discard its result, and every constructor
retains at most the supplied bridge unchanged (none for the debug-only
variant). -/
theorem coreService_constructor_matrix :
    ∀ (σ : Type) (st : Storage σ) (sta : StorageAscii σ)
      (cb : DebugLogCallback σ) (host : σ),
      CoreService.initialize_native_with_debug_call cb host
        = .ok (⟨none⟩, cb host (some debugMsgTriggered))
    ∧ CoreService.initialize_with_storage_with_set st host
        = .ok (⟨some (StorageI.Bare st)⟩,
               st.set_callback host probeKey (some probeValue))
    ∧ CoreService.initialize_with_storage_with_get st host
        = RustOutcome.map (fun _ => (⟨some (StorageI.Bare st)⟩, host))
            (st.storage_get host probeKey)
    ∧ CoreService.initialize_with_storage_without_set_get st cb host
        = .ok (⟨some (StorageI.Bare st)⟩, cb host (some debugMsgTriggered))
    ∧ CoreService.initialize_with_storage_ascii_with_set sta host
        = .ok (⟨some (StorageI.Ascii sta)⟩,
               sta.set_callback host (some probeKey) (some probeValue))
    ∧ CoreService.initialize_with_storage_ascii_with_get sta host
        = .ok (⟨some (StorageI.Ascii sta)⟩, host)
    ∧ CoreService.initialize_with_storage_ascii_without_set_get sta cb host
        = .ok (⟨some (StorageI.Ascii sta)⟩, cb host (some debugMsgBeforeRuntime)) := by
  intro σ st sta cb host
  have hk : CString.new probeKey = some probeKey := by decide
  have hv : CString.new probeValue = some probeValue := by decide
  have hd1 : CString.new debugMsgTriggered = some debugMsgTriggered := by decide
  have hd2 : CString.new debugMsgBeforeRuntime = some debugMsgBeforeRuntime := by decide
  refine ⟨?_, ?_, ?_, ?_, ?_, ?_, ?_⟩
  · simp [CoreService.initialize_native_with_debug_call, hd1]
  · simp [CoreService.initialize_with_storage_with_set, Storage.storage_set, hk, hv]
  · cases hsg : st.storage_get host probeKey with
    | ok r => simp [CoreService.initialize_with_storage_with_get, RustOutcome.map, hsg]
    | err e => exact absurd hsg (storage_get_raw_no_err st host probeKey e)
    | panic m => simp [CoreService.initialize_with_storage_with_get, RustOutcome.map, hsg]
  · simp [CoreService.initialize_with_storage_without_set_get, hd1]
  · simp [CoreService.initialize_with_storage_ascii_with_set,
          StorageAscii.storage_set, hk, hv]
  · simp only [CoreService.initialize_with_storage_ascii_with_get,
               StorageAscii.storage_get, hk]
    cases sta.get_callback host (some probeKey) with
    | none => rfl
    | some raw =>
      by_cases hvu : validUtf8 (cStrRead raw) = true
      · simp [hvu]
      · simp [hvu]
  · simp [CoreService.initialize_with_storage_ascii_without_set_get, hd2]

/-- C10: in the three constructors that take a debug callback, the error
branch guarding the CString construction of the fixed diagnostic
literal is unreachable (neither literal contains an interior null
byte), so each constructor returns Ok whenever the callback returns -
with no storage for the debug-only variant and with exactly the
supplied bridge otherwise. -/
theorem debug_ctor_error_branch_unreachable :
    (CString.new debugMsgTriggered).isSome = true
    ∧ (CString.new debugMsgBeforeRuntime).isSome = true
    ∧ ∀ (σ : Type) (st : Storage σ) (sta : StorageAscii σ)
        (cb : DebugLogCallback σ) (host : σ),
        CoreService.initialize_native_with_debug_call cb host
          = .ok (⟨none⟩, cb host (some debugMsgTriggered))
      ∧ CoreService.initialize_with_storage_without_set_get st cb host
          = .ok (⟨some (StorageI.Bare st)⟩, cb host (some debugMsgTriggered))
      ∧ CoreService.initialize_with_storage_ascii_without_set_get sta cb host
          = .ok (⟨some (StorageI.Ascii sta)⟩, cb host (some debugMsgBeforeRuntime)) := by
  refine ⟨by decide, by decide, ?_⟩
  intro σ st sta cb host
  have hd1 : CString.new debugMsgTriggered = some debugMsgTriggered := by decide
  have hd2 : CString.new debugMsgBeforeRuntime = some debugMsgBeforeRuntime := by decide
  refine ⟨?_, ?_, ?_⟩
  · simp [CoreService.initialize_native_with_debug_call, hd1]
  · simp [CoreService.initialize_with_storage_without_set_get, hd1]
  · simp [CoreService.initialize_with_storage_ascii_without_set_get, hd2]

/-- C1 (refuting the claim as stated): calling the bounded ffi_get with
the key key, a host get callback yielding the null pointer (so the
encoded result is the JSON text null plus terminator, 5 bytes) and an
output buffer of capacity 3 panics on the out-of-bounds slice index -
surfacing as the Panic code at the boundary - instead of failing with
the Fail code; the code contains no capacity check. -/
theorem ffiGet_undersized_buffer_panics_not_fail :
    (StorageAscii.ffi_get nullAsciiStub () probeKey [0, 0, 0]).ffiCode = FFIError.Panic
    ∧ (StorageAscii.ffi_get nullAsciiStub () probeKey [0, 0, 0]).ffiCode ≠ FFIError.Fail
    ∧ (StorageAscii.ffi_get nullAsciiStub () probeKey [0, 0, 0]).isPanic = true := by
  decide

/-- C2 (refuting the claim as stated): a key or value containing an
embedded null byte makes the set operation of either bridge panic
inside CString::new(..).unwrap() - surfacing as the Panic code at the
boundary - rather than resolve to the Fail code. -/
theorem storageSet_embedded_nul_panics_not_fail :
    (Storage.storage_set nullRawStub () [107, 0] (some [118])).ffiCode = FFIError.Panic
    ∧ (Storage.storage_set nullRawStub () [107] (some [118, 0])).ffiCode = FFIError.Panic
    ∧ (StorageAscii.storage_set nullAsciiStub () [107, 0] (some [118])).ffiCode = FFIError.Panic
    ∧ (StorageAscii.storage_set nullAsciiStub () [107] (some [118, 0])).ffiCode = FFIError.Panic
    ∧ (Storage.storage_set nullRawStub () [107, 0] (some [118])).ffiCode ≠ FFIError.Fail := by
  decide

/-- C3 (refuting the claim as stated for the raw bridge): when the host
get callback returns the invalid UTF-8 byte 0xFF, the bounded bridge
correctly reports an Err mapped to Fail, but the raw bridge panics in
to_str().unwrap() - surfacing as the Panic code, not Fail. -/
theorem get_invalid_utf8_raw_panics_ascii_fails :
    (Storage.storage_get badUtf8RawStub () probeKey).ffiCode = FFIError.Panic
    ∧ (Storage.storage_get badUtf8RawStub () probeKey).ffiCode ≠ FFIError.Fail
    ∧ (StorageAscii.storage_get badUtf8AsciiStub () probeKey).ffiCode = FFIError.Fail
    ∧ (StorageAscii.storage_get badUtf8AsciiStub () probeKey)
        = .err (EnvError.Other "invalid utf-8 sequence") := by
  decide

theorem storage_get_ok_some_no_nul {σ : Type} (s : StorageAscii σ) (host : σ)
    (key v : List UInt8) (hget : s.storage_get host key = .ok (some v)) :
    ¬ (0 : UInt8) ∈ v := by
  unfold StorageAscii.storage_get at hget
  cases hck : CString.new key with
  | none => simp only [hck] at hget; exact absurd hget (by simp)
  | some keyC =>
    simp only [hck] at hget
    cases hcb : s.get_callback host (some keyC) with
    | none => simp only [hcb] at hget; simp at hget
    | some raw =>
      simp only [hcb] at hget
      by_cases hvu : validUtf8 (cStrRead raw) = true
      · simp only [hvu, if_true, RustOutcome.ok.injEq, Option.some.injEq] at hget
        subst hget
        exact cStrRead_zero_not_mem raw
      · simp [hvu] at hget

/-- C5: for every key without an interior null byte, set(k, None) on
either bridge invokes the host set callback with the null value pointer
(the raw bridge passes std::ptr::null(), the bounded bridge passes the
default AsciiPointer, also null) and never with an empty string; absent
and empty are distinguished by pointer nullity. -/
theorem set_none_invokes_callback_with_null_value
    {σ : Type} (s : Storage σ) (sa : StorageAscii σ) (host hosta : σ)
    (k : List UInt8) (h : ¬ (0 : UInt8) ∈ k) :
    Storage.storage_set s host k none = .ok (s.set_callback host k none)
    ∧ StorageAscii.storage_set sa hosta k none
        = .ok (sa.set_callback hosta (some k) none)
    ∧ (none : Option (List UInt8)) ≠ some [] := by
  have hk := CString.new_of_not_mem k h
  refine ⟨?_, ?_, by simp⟩
  · simp [Storage.storage_set, hk]
  · simp [StorageAscii.storage_set, hk]

theorem set_none_invokes_callback_with_null_value_witness :
    (¬ (0 : UInt8) ∈ probeKey)
    ∧ (Storage.storage_set nullRawStub () probeKey none
         = .ok (nullRawStub.set_callback () probeKey none)
       ∧ StorageAscii.storage_set nullAsciiStub () probeKey none
           = .ok (nullAsciiStub.set_callback () (some probeKey) none)
       ∧ (none : Option (List UInt8)) ≠ some []) :=
  ⟨by decide,
   set_none_invokes_callback_with_null_value nullRawStub nullAsciiStub () () probeKey
     (by decide)⟩

/-- C4: every successful bounded ffi_get call copies the result bytes
including the terminating null byte into the output buffer (leaving the
bytes past the written region unchanged) and reports in result_written
the exact number of bytes copied including the terminator; when the
host get callback yields no value the bytes written are exactly the
JSON text null plus terminator and result_written is 5. -/
theorem ffiGet_success_writes_exact_bytes
    {σ : Type} (s : StorageAscii σ) (host : σ) (key buffer : List UInt8)
    (value : Option (List UInt8))
    (hkey : validUtf8 key = true)
    (hget : s.storage_get host key = .ok value)
    (hcap : (value.getD jsonNullText).length + 1 ≤ buffer.length) :
    s.ffi_get host key buffer
      = .ok (value.getD jsonNullText
               ++ 0 :: buffer.drop ((value.getD jsonNullText).length + 1),
             (value.getD jsonNullText).length + 1)
    ∧ (value = none →
        value.getD jsonNullText = jsonNullText
        ∧ (value.getD jsonNullText).length + 1 = 5) := by
  have hjson : ¬ (0 : UInt8) ∈ value.getD jsonNullText := by
    cases value with
    | none => decide
    | some v => simpa using storage_get_ok_some_no_nul s host key v hget
  have hcs := CString.new_of_not_mem _ hjson
  constructor
  · unfold StorageAscii.ffi_get
    simp only [hkey, if_true, hget, hcs]
    have hlen : ((value.getD jsonNullText) ++ [0]).length
        = (value.getD jsonNullText).length + 1 := by simp
    rw [hlen, if_pos hcap]
    simp [List.append_assoc]
  · intro h0
    subst h0
    exact ⟨rfl, by decide⟩

theorem ffiGet_success_writes_exact_bytes_witness :
    (validUtf8 probeKey = true
     ∧ StorageAscii.storage_get nullAsciiStub () probeKey = .ok none
     ∧ ((none : Option (List UInt8)).getD jsonNullText).length + 1
         ≤ ([1, 1, 1, 1, 1, 1] : List UInt8).length)
    ∧ (StorageAscii.ffi_get nullAsciiStub () probeKey [1, 1, 1, 1, 1, 1]
         = .ok ((none : Option (List UInt8)).getD jsonNullText
                  ++ 0 :: ([1, 1, 1, 1, 1, 1] : List UInt8).drop
                      (((none : Option (List UInt8)).getD jsonNullText).length + 1),
                ((none : Option (List UInt8)).getD jsonNullText).length + 1)
       ∧ ((none : Option (List UInt8)) = none →
           (none : Option (List UInt8)).getD jsonNullText = jsonNullText
           ∧ ((none : Option (List UInt8)).getD jsonNullText).length + 1 = 5)) :=
  ⟨⟨by decide, by decide, by decide⟩,
   ffiGet_success_writes_exact_bytes nullAsciiStub () probeKey [1, 1, 1, 1, 1, 1] none
     (by decide) (by decide) (by decide)⟩

/-- C6: for UTF-8 key and value byte strings without interior null
bytes, set(k, Some(v)) followed by get(k) through the same bridge
instance backed by the in-memory stub map returns Some(v) on both
bridges, and get(k) on the raw bridge over a stub map with no entry for
k returns None. -/
theorem set_get_roundtrip_and_absent_none
    (m m2 : StubMap) (k v : List UInt8)
    (hk : ¬ (0 : UInt8) ∈ k) (hv : ¬ (0 : UInt8) ∈ v)
    (hvu : validUtf8 v = true)
    (habsent : stubLookup m2 k = none) :
    Storage.storage_set rawStub m k (some v) = .ok (stubInsert m k v)
    ∧ Storage.storage_get rawStub (stubInsert m k v) k = .ok (some v)
    ∧ StorageAscii.storage_set asciiStub m k (some v) = .ok (stubInsert m k v)
    ∧ StorageAscii.storage_get asciiStub (stubInsert m k v) k = .ok (some v)
    ∧ Storage.storage_get rawStub m2 k = .ok none := by
  have hkc := CString.new_of_not_mem k hk
  have hvc := CString.new_of_not_mem v hv
  have hread : cStrRead v = v := cStrRead_eq_self v hv
  refine ⟨?_, ?_, ?_, ?_, ?_⟩
  · simp [Storage.storage_set, hkc, hvc, rawStub]
  · simp [Storage.storage_get, hkc, rawStub, stubLookup, stubInsert,
          List.find?, hread, hvu]
  · simp [StorageAscii.storage_set, hkc, hvc, asciiStub]
  · simp [StorageAscii.storage_get, hkc, asciiStub, stubLookup, stubInsert,
          List.find?, hread, hvu]
  · simp [Storage.storage_get, hkc, rawStub, habsent]

theorem set_get_roundtrip_and_absent_none_witness :
    ((¬ (0 : UInt8) ∈ probeKey)
     ∧ (¬ (0 : UInt8) ∈ probeValue)
     ∧ validUtf8 probeValue = true
     ∧ stubLookup ([] : StubMap) probeKey = none)
    ∧ (Storage.storage_set rawStub ([] : StubMap) probeKey (some probeValue)
         = .ok (stubInsert ([] : StubMap) probeKey probeValue)
       ∧ Storage.storage_get rawStub (stubInsert ([] : StubMap) probeKey probeValue) probeKey
           = .ok (some probeValue)
       ∧ StorageAscii.storage_set asciiStub ([] : StubMap) probeKey (some probeValue)
           = .ok (stubInsert ([] : StubMap) probeKey probeValue)
       ∧ StorageAscii.storage_get asciiStub (stubInsert ([] : StubMap) probeKey probeValue) probeKey
           = .ok (some probeValue)
       ∧ Storage.storage_get rawStub ([] : StubMap) probeKey = .ok none) :=
  ⟨⟨by decide, by decide, by decide, by decide⟩,
   set_get_roundtrip_and_absent_none ([] : StubMap) ([] : StubMap) probeKey probeValue
     (by decide) (by decide) (by decide) (by decide)⟩
